import Mathlib

/-!
Verification development for the Amorce orchestrator core
(`src/orchestrator.py`, `src/agent_client.py`).

The embedding models, faithfully to the Python source:

* the canonical JSON encoding used for signing (`agent_client._sign_task`,
  `json.dumps(..., sort_keys=True, separators=(",", ":"))`) and for
  verification (`orchestrator.a2a_transact`,
  `json.dumps(body, sort_keys=True)` with the default separators);
* the TTL-cached identity lookup `get_agent_record` and the derived
  `get_public_key`;
* the API-key decorator `require_api_key`;
* the `/v1/a2a/transact` routing pipeline `a2a_transact`.

Machine integers do not occur (Python ints are unbounded; timestamps are
modelled as natural-number seconds, mirroring `time.time()` comparisons).
Network calls are modelled by explicit `Fetch` results supplied by the
environment; signature verification and PEM parsing are abstract function
parameters, since the claims under study concern the routing and caching
logic around them, the one exception being the canonical encoding itself,
which is modelled concretely.

Scope note: agent identifiers, service identifiers and endpoints are
modelled as JSON strings (UUIDs / URLs per the protocol data model); a
non-string value in one of those fields is treated as missing.
-/

/-- JSON values as produced by Python `json.loads` on protocol messages.
Numbers are modelled as integers (all numbers appearing in the protocol
and in the claims are integers). -/
inductive Json where
  | null : Json
  | bool (b : Bool) : Json
  | num (n : Int) : Json
  | str (s : String) : Json
  | arr (elems : List Json) : Json
  | obj (fields : List (String × Json)) : Json

/-- Python truthiness of a JSON value (`bool(x)`). -/
def Json.truthy : Json → Bool
  | Json.null => false
  | Json.bool b => b
  | Json.num n => n != 0
  | Json.str s => s != ""
  | Json.arr xs => !xs.isEmpty
  | Json.obj kvs => !kvs.isEmpty

/-- View a JSON value as a Python dict, if it is one. -/
def Json.asObj : Json → Option (List (String × Json))
  | Json.obj kvs => some kvs
  | _ => none

/-- Python `d.get(k)` on a parsed JSON object: first binding of the key. -/
def jsonGet (kvs : List (String × Json)) (k : String) : Option Json :=
  (kvs.find? (fun kv => kv.1 == k)).map (fun kv => kv.2)

/-- Extract a non-empty string field value.  Agent ids, service ids and
endpoints are modelled as strings (see the scope note above); a missing,
empty or non-string value counts as falsy/absent. -/
def strId : Option Json → Option String
  | some (Json.str s) => if s = "" then none else some s
  | _ => none

/-- Lowercase hexadecimal digit, as emitted by Python `json.dumps`. -/
def hexDigit (n : Nat) : Char :=
  if n < 10 then Char.ofNat (48 + n) else Char.ofNat (87 + n)

/-- A `\uXXXX` escape for a code unit below `0x10000`. -/
def uEscape (n : Nat) : String :=
  "\\u" ++ String.mk [hexDigit (n / 4096 % 16), hexDigit (n / 256 % 16),
                      hexDigit (n / 16 % 16), hexDigit (n % 16)]

/-- Escape one character exactly as CPython `json.dumps` does with the
default `ensure_ascii=True`: `"` and `\` are backslash-escaped, the usual
control shorthands apply, all other characters outside `0x20`–`0x7E` become
`\uXXXX` escapes (a surrogate pair above the BMP). -/
def escapeChar (c : Char) : String :=
  if c = '"' then "\\\""
  else if c = '\\' then "\\\\"
  else if c = '\n' then "\\n"
  else if c = '\r' then "\\r"
  else if c = '\t' then "\\t"
  else if c.toNat = 8 then "\\b"
  else if c.toNat = 12 then "\\f"
  else if c.toNat < 32 || c.toNat > 126 then
    if c.toNat < 65536 then uEscape c.toNat
    else
      uEscape (55296 + (c.toNat - 65536) / 1024) ++ uEscape (56320 + (c.toNat - 65536) % 1024)
  else String.singleton c

/-- String body escaping for the JSON encoder. -/
def escapeString (s : String) : String :=
  String.join (s.toList.map escapeChar)

/-- Strict lexicographic order on character lists by code point, the order
Python uses to compare strings. -/
def charListLt : List Char → List Char → Bool
  | _, [] => false
  | [], _ :: _ => true
  | a :: as, b :: bs =>
      a.toNat < b.toNat || (a.toNat == b.toNat && charListLt as bs)

/-- Python `a < b` on strings (code-point lexicographic). -/
def strLt (a b : String) : Bool := charListLt a.toList b.toList

/-- Insert a key/value pair into a key-sorted field list (ascending by
Unicode code points, as Python `sorted` orders strings). -/
def insertField (kv : String × Json) : List (String × Json) → List (String × Json)
  | [] => [kv]
  | kv2 :: rest =>
      if strLt kv.1 kv2.1 then kv :: kv2 :: rest
      else if kv.1 = kv2.1 then kv :: kv2 :: rest
      else kv2 :: insertField kv rest

/-- Sort object fields by key, as `sort_keys=True` does at each object. -/
def sortFields : List (String × Json) → List (String × Json)
  | [] => []
  | kv :: rest => insertField kv (sortFields rest)

mutual

/-- Recursively sort every object's fields by key.  Encoding the result
without further sorting equals Python `json.dumps(..., sort_keys=True)`,
which sorts at each object while encoding. -/
def sortJson : Json → Json
  | Json.null => Json.null
  | Json.bool b => Json.bool b
  | Json.num n => Json.num n
  | Json.str s => Json.str s
  | Json.arr xs => Json.arr (sortJsonList xs)
  | Json.obj kvs => Json.obj (sortFields (sortJsonFields kvs))
termination_by structural j => j

/-- Pointwise `sortJson` over array elements. -/
def sortJsonList : List Json → List Json
  | [] => []
  | x :: xs => sortJson x :: sortJsonList xs
termination_by structural l => l

/-- Pointwise `sortJson` over object field values. -/
def sortJsonFields : List (String × Json) → List (String × Json)
  | [] => []
  | (k, v) :: rest => (k, sortJson v) :: sortJsonFields rest
termination_by structural l => l

end

mutual

/-- `json.dumps` on an already key-sorted value, parameterised by the item
separator and the key/value separator (Python `separators=(itemSep, kvSep)`). -/
def dumpsRaw (itemSep kvSep : String) : Json → String
  | Json.null => "null"
  | Json.bool true => "true"
  | Json.bool false => "false"
  | Json.num n => toString n
  | Json.str s => "\"" ++ escapeString s ++ "\""
  | Json.arr xs => "[" ++ dumpsElems itemSep kvSep xs ++ "]"
  | Json.obj kvs => "\x7b" ++ dumpsFields itemSep kvSep kvs ++ "\x7d"
termination_by structural j => j

/-- Array elements joined by the item separator. -/
def dumpsElems (itemSep kvSep : String) : List Json → String
  | [] => ""
  | [x] => dumpsRaw itemSep kvSep x
  | x :: y :: rest => dumpsRaw itemSep kvSep x ++ itemSep ++ dumpsElems itemSep kvSep (y :: rest)
termination_by structural l => l

/-- Object fields joined by the item separator, each key and value joined
by the key/value separator. -/
def dumpsFields (itemSep kvSep : String) : List (String × Json) → String
  | [] => ""
  | [(k, v)] => "\"" ++ escapeString k ++ "\"" ++ kvSep ++ dumpsRaw itemSep kvSep v
  | (k, v) :: kv2 :: rest =>
      "\"" ++ escapeString k ++ "\"" ++ kvSep ++ dumpsRaw itemSep kvSep v
        ++ itemSep ++ dumpsFields itemSep kvSep (kv2 :: rest)
termination_by structural l => l

end

/-- `json.dumps(j, sort_keys=True, separators=(itemSep, kvSep))`. -/
def json_dumps (itemSep kvSep : String) (j : Json) : String :=
  dumpsRaw itemSep kvSep (sortJson j)

/-- Canonical bytes signed by the consumer:
`agent_client._sign_task` line 181,
`json.dumps(task_object, sort_keys=True, separators=(",", ":"))`. -/
def signTaskCanonical (task : Json) : String :=
  json_dumps "," ":" task

/-- Canonical bytes verified by the router:
`orchestrator.a2a_transact` line 254, `json.dumps(body, sort_keys=True)`
with the Python default separators `", "` and `": "`. -/
def a2aCanonical (body : Json) : String :=
  json_dumps ", " ": " body

/-- Outcome of one `requests` call: `exn` is a raised
`requests.exceptions.RequestException` (connection failure or timeout);
`resp status body` is an HTTP response, with `body = none` when
`response.json()` would fail to parse the body. -/
inductive Fetch where
  | exn : Fetch
  | resp (status : Nat) (body : Option Json) : Fetch

/-- `AGENT_RECORD_CACHE`: agent id to record and fetch timestamp. -/
abbrev RecordCache := List (String × Json × Nat)

/-- `PUBLIC_KEY_CACHE`: agent id to parsed key and fetch timestamp.
The parsed-key type `K` is abstract. -/
abbrev KeyCache (K : Type) := List (String × K × Nat)

/-- `CACHE_TTL_SECONDS = 300` (orchestrator.py line 73). -/
def CACHE_TTL_SECONDS : Nat := 300

/-- Dictionary read, `CACHE.get(agent_id)`. -/
def cacheLookup {α : Type} (c : List (String × α × Nat)) (k : String) : Option (α × Nat) :=
  c.lookup k

/-- Dictionary write, `CACHE[agent_id] = (value, time.time())`.  The new
binding shadows any previous one, which `cacheLookup` therefore never
sees again — observationally the Python dict overwrite. -/
def cacheInsert {α : Type} (c : List (String × α × Nat)) (k : String) (v : α) (ts : Nat) :
    List (String × α × Nat) :=
  (k, v, ts) :: c

/-- The Python status check `data.get("status") != "active"` negated:
true exactly when the record carries the string value `"active"`. -/
def isActiveStatus (kvs : List (String × Json)) : Bool :=
  match jsonGet kvs "status" with
  | some (Json.str s) => s == "active"
  | _ => false

/-- Result of `get_agent_record`: the returned record (`None` is `none`),
the cache afterwards, and whether a Trust Directory fetch was issued. -/
structure LookupOut where
  record : Option Json
  cache : RecordCache
  fetched : Bool

/-- The fetch-and-validate path of `get_agent_record`
(orchestrator.py lines 100–136), reached on a cache miss or a stale
entry: a 404 returns `None`; any other non-200 returns `None`; an
unparseable body or a non-dict body raises and is caught, returning
`None`; a record whose `status` is not `"active"` returns `None`; only an
active record is stored in the cache and returned.  No failure writes the
cache. -/
def fetchAgentRecord (fetch : Fetch) (now : Nat) (agent : String) (cache : RecordCache) :
    LookupOut :=
  match fetch with
  | Fetch.exn => ⟨none, cache, true⟩
  | Fetch.resp status body =>
    if status = 404 then ⟨none, cache, true⟩
    else if status ≠ 200 then ⟨none, cache, true⟩
    else
      match body with
      | none => ⟨none, cache, true⟩
      | some data =>
        match data.asObj with
        | none => ⟨none, cache, true⟩
        | some kvs =>
          if isActiveStatus kvs then ⟨some data, cacheInsert cache agent data now, true⟩
          else ⟨none, cache, true⟩

/-- `get_agent_record` (orchestrator.py lines 80–136).  `dirUrlSet` is
whether `TRUST_DIRECTORY_URL` is configured; `fetch` is what the Trust
Directory lookup would yield if issued; `now` is `time.time()` in whole
seconds. -/
def get_agent_record (dirUrlSet : Bool) (fetch : Fetch) (now : Nat) (agent : String)
    (cache : RecordCache) : LookupOut :=
  if dirUrlSet = false then ⟨none, cache, false⟩
  else
    match cacheLookup cache agent with
    | some (record, timestamp) =>
      if now - timestamp < CACHE_TTL_SECONDS then ⟨some record, cache, false⟩
      else fetchAgentRecord fetch now agent cache
    | none => fetchAgentRecord fetch now agent cache

/-- Result of `get_public_key`: the key (if any), both caches afterwards,
and whether a directory fetch was issued. -/
structure KeyLookupOut (K : Type) where
  key : Option K
  kcache : KeyCache K
  rcache : RecordCache
  fetched : Bool

/-- The key-cache-miss path of `get_public_key` (orchestrator.py lines
154–176): obtain the full record through `get_agent_record`, extract the
`public_key` PEM (a missing, empty or non-string value fails), parse it
(`parseKey` models `load_pem_public_key`; a parse failure is caught and
returns `None`), and cache the parsed key.  A cached non-dict record
would raise at `record.get` in the source; it is modelled as a failed
lookup (no record this module itself caches has that shape). -/
def get_public_key_miss {K : Type} (parseKey : String → Option K) (dirUrlSet : Bool)
    (fetch : Fetch) (now : Nat) (agent : String) (kc : KeyCache K) (rc : RecordCache) :
    KeyLookupOut K :=
  let r := get_agent_record dirUrlSet fetch now agent rc
  match r.record with
  | none => ⟨none, kc, r.cache, r.fetched⟩
  | some record =>
    match record.asObj with
    | none => ⟨none, kc, r.cache, r.fetched⟩
    | some kvs =>
      match jsonGet kvs "public_key" with
      | some (Json.str pem) =>
        if pem = "" then ⟨none, kc, r.cache, r.fetched⟩
        else
          match parseKey pem with
          | none => ⟨none, kc, r.cache, r.fetched⟩
          | some key => ⟨some key, cacheInsert kc agent key now, r.cache, r.fetched⟩
      | _ => ⟨none, kc, r.cache, r.fetched⟩

/-- `get_public_key` (orchestrator.py lines 139–176): serve a fresh
cached key without any fetch, otherwise go through
`get_public_key_miss`. -/
def get_public_key {K : Type} (parseKey : String → Option K) (dirUrlSet : Bool)
    (fetch : Fetch) (now : Nat) (agent : String) (kc : KeyCache K) (rc : RecordCache) :
    KeyLookupOut K :=
  match cacheLookup kc agent with
  | some (key, timestamp) =>
    if now - timestamp < CACHE_TTL_SECONDS then ⟨some key, kc, rc, false⟩
    else get_public_key_miss parseKey dirUrlSet fetch now agent kc rc
  | none => get_public_key_miss parseKey dirUrlSet fetch now agent kc rc

/-- Decision of the `require_api_key` decorator. -/
inductive KeyCheck where
  | proceed : KeyCheck
  | unauthorized : KeyCheck
deriving DecidableEq

/-- Python falsiness of an optional header / environment string:
`None` and the empty string are falsy. -/
def optFalsy : Option String → Bool
  | none => true
  | some s => s == ""

/-- `require_api_key` (orchestrator.py lines 44–65): if the server-side
`AGENT_API_KEY` is unset (or empty), the check is bypassed; otherwise the
`X-API-Key` header must be present, non-empty and equal to the server
key, else the request is answered 401. -/
def require_api_key (serverKey headerKey : Option String) : KeyCheck :=
  if optFalsy serverKey then KeyCheck.proceed
  else if optFalsy headerKey then KeyCheck.unauthorized
  else if headerKey = serverKey then KeyCheck.proceed
  else KeyCheck.unauthorized

/-- A sequence of `get_agent_record` calls for one agent at the given
times, threading the cache through and counting issued directory
fetches. -/
def runLookups (dirUrlSet : Bool) (fetch : Fetch) (agent : String) :
    List Nat → RecordCache → RecordCache × Nat
  | [], cache => (cache, 0)
  | t :: ts, cache =>
    let r := get_agent_record dirUrlSet fetch t agent cache
    let rest := runLookups dirUrlSet fetch agent ts r.cache
    (rest.1, (if r.fetched then 1 else 0) + rest.2)

/-- Number of directory fetches issued by a sequence of lookups. -/
def countFetches (dirUrlSet : Bool) (fetch : Fetch) (agent : String) (times : List Nat)
    (cache : RecordCache) : Nat :=
  (runLookups dirUrlSet fetch agent times cache).2

/-- The record cache can only hold records that carried an active status
when they were fetched. -/
def RecordCacheInv (cache : RecordCache) : Prop :=
  ∀ (agent : String) (record : Json) (ts : Nat),
    cacheLookup cache agent = some (record, ts) →
    ∃ kvs, record.asObj = some kvs ∧ isActiveStatus kvs = true

/-- Outcome of `base64-decode + public_key.verify` (orchestrator.py lines
254–256): `valid` when `verify` returns, `invalid` for a raised
`InvalidSignature`, `error` for any other exception (e.g. malformed
base64). -/
inductive SigResult where
  | valid : SigResult
  | invalid : SigResult
  | error : SigResult

/-- Environment of one `/v1/a2a/transact` request: server configuration,
crypto primitives, and the outcome each downstream call would have.
`K` is the abstract type of parsed public keys; `parseKey` models
`load_pem_public_key`; `verify key canonicalMessage signatureB64` models
the verification step. -/
structure A2AEnv (K : Type) where
  serverApiKey : Option String
  dirUrlSet : Bool
  parseKey : String → Option K
  verify : K → String → String → SigResult
  consumerFetch : Fetch
  serviceFetch : Fetch
  providerFetch : Fetch
  proxyFetch : Fetch

/-- One inbound request: parsed JSON body (none when unparseable),
`X-Agent-Signature` header and `X-API-Key` header. -/
structure A2ARequest where
  body : Option Json
  signature : Option String
  apiKey : Option String

/-- The two module-level caches threaded through a request. -/
structure A2AState (K : Type) where
  kcache : KeyCache K
  rcache : RecordCache

/-- An HTTP response as seen by the caller: status code and JSON body. -/
structure HttpOut where
  status : Nat
  body : Json

/-- `jsonify({"error": msg})`. -/
def errJson (msg : String) : Json := Json.obj [("error", Json.str msg)]

/-- An exception escaping the handler: Flask's generic 500. -/
def internalError : HttpOut := ⟨500, errJson "Internal Server Error"⟩

/-- Step 4–5 of `a2a_transact` (orchestrator.py lines 304–325): proxy the
transaction to the provider endpoint and relay its JSON response and
status code; a `RequestException` — a connection failure, a timeout, or a
provider body that `response.json()` cannot parse (`JSONDecodeError` is a
`RequestException`) — yields 503. -/
def a2a_proxy (proxyFetch : Fetch) : HttpOut :=
  match proxyFetch with
  | Fetch.exn => ⟨503, errJson "Provider agent is offline or unreachable."⟩
  | Fetch.resp _ none => ⟨503, errJson "Provider agent is offline or unreachable."⟩
  | Fetch.resp s (some j) => ⟨s, j⟩

/-- Step 3 of `a2a_transact` (orchestrator.py lines 286–302): extract the
provider id from the service contract, resolve the provider record via
`get_agent_record` (404 when it yields nothing — not found *or*
inactive), extract `metadata.api_endpoint`, then proxy. -/
def a2a_provider {K : Type} (env : A2AEnv K) (st : A2AState K) (now : Nat) (contract : Json) :
    HttpOut × A2AState K :=
  match contract.asObj with
  | none => (internalError, st)
  | some ckvs =>
    match strId (jsonGet ckvs "provider_agent_id") with
    | none => (⟨500, errJson "Service is misconfigured (missing provider)"⟩, st)
    | some pid =>
      match get_agent_record env.dirUrlSet env.providerFetch now pid st.rcache with
      | ⟨rrec, rcache2, _⟩ =>
        match rrec with
        | none =>
          (⟨404, errJson ("Provider agent not found or inactive: " ++ pid)⟩,
            ⟨st.kcache, rcache2⟩)
        | some record =>
          match record.asObj with
          | none => (internalError, ⟨st.kcache, rcache2⟩)
          | some rkvs =>
            match jsonGet rkvs "metadata" with
            | none =>
              (⟨500, errJson "Provider agent is misconfigured (missing endpoint)"⟩,
                ⟨st.kcache, rcache2⟩)
            | some m =>
              match m.asObj with
              | none => (internalError, ⟨st.kcache, rcache2⟩)
              | some mkvs =>
                match strId (jsonGet mkvs "api_endpoint") with
                | none =>
                  (⟨500, errJson "Provider agent is misconfigured (missing endpoint)"⟩,
                    ⟨st.kcache, rcache2⟩)
                | some _ => (a2a_proxy env.proxyFetch, ⟨st.kcache, rcache2⟩)

/-- Step 2 of `a2a_transact` (orchestrator.py lines 265–284): require a
`service_id`, look the service up at the Trust Directory — a raised
`RequestException` (network failure, timeout, unset directory URL making
`requests.get` raise, or an unparseable 200 body) yields **500**
"Internal error: Failed to contact Trust Directory", any non-200 status
yields 404 — then resolve the provider. -/
def a2a_service {K : Type} (env : A2AEnv K) (st : A2AState K) (now : Nat)
    (bodyKvs : List (String × Json)) : HttpOut × A2AState K :=
  match strId (jsonGet bodyKvs "service_id") with
  | none => (⟨400, errJson "TransactionRequest missing \x27service_id\x27."⟩, st)
  | some sid =>
    if env.dirUrlSet = false then
      (⟨500, errJson "Internal error: Failed to contact Trust Directory"⟩, st)
    else
      match env.serviceFetch with
      | Fetch.exn => (⟨500, errJson "Internal error: Failed to contact Trust Directory"⟩, st)
      | Fetch.resp s b =>
        if s ≠ 200 then (⟨404, errJson ("Service not found or invalid: " ++ sid)⟩, st)
        else
          match b with
          | none => (⟨500, errJson "Internal error: Failed to contact Trust Directory"⟩, st)
          | some contract => a2a_provider env st now contract

/-- Body of the 400 answer for the `all([...])` validation. -/
def malformedA2A : Json :=
  errJson "Malformed A2A request (missing body, signature, or consumer_agent_id)."

/-- `/v1/a2a/transact` (orchestrator.py lines 227–325), wrapped by
`require_api_key`: validate the request shape, resolve the consumer's
public key (403 on failure), verify the signature over
`json.dumps(body, sort_keys=True)` (401 invalid / 500 other error), then
resolve the service and provider and proxy the transaction. -/
def a2a_transact {K : Type} (env : A2AEnv K) (st : A2AState K) (now : Nat)
    (req : A2ARequest) : HttpOut × A2AState K :=
  match require_api_key env.serverApiKey req.apiKey with
  | KeyCheck.unauthorized => (⟨401, errJson "Unauthorized"⟩, st)
  | KeyCheck.proceed =>
    match req.body with
    | none => (⟨400, errJson "Malformed request."⟩, st)
    | some bodyJson =>
      match bodyJson.asObj with
      | none => (⟨400, errJson "Malformed request."⟩, st)
      | some bodyKvs =>
        if bodyKvs.isEmpty then (⟨400, malformedA2A⟩, st)
        else
          match req.signature with
          | none => (⟨400, malformedA2A⟩, st)
          | some sig =>
            if sig = "" then (⟨400, malformedA2A⟩, st)
            else
              match strId (jsonGet bodyKvs "consumer_agent_id") with
              | none => (⟨400, malformedA2A⟩, st)
              | some cid =>
                match get_public_key env.parseKey env.dirUrlSet env.consumerFetch now cid
                    st.kcache st.rcache with
                | ⟨keyOpt, kc2, rc2, _⟩ =>
                  match keyOpt with
                  | none =>
                    (⟨403, errJson ("Failed to verify agent identity: " ++ cid)⟩, ⟨kc2, rc2⟩)
                  | some key =>
                    match env.verify key (a2aCanonical bodyJson) sig with
                    | SigResult.invalid => (⟨401, errJson "Invalid signature."⟩, ⟨kc2, rc2⟩)
                    | SigResult.error =>
                      (⟨500, errJson "A critical error occurred during signature verification."⟩,
                        ⟨kc2, rc2⟩)
                    | SigResult.valid => a2a_service env ⟨kc2, rc2⟩ now bodyKvs

/-- An active consumer record with a PEM key, as the Directory returns it. -/
def demoRecordA : Json :=
  Json.obj [("public_key", Json.str "PEM-A"), ("status", Json.str "active")]

/-- An active provider record with a declared endpoint. -/
def demoProviderB : Json :=
  Json.obj [("metadata", Json.obj [("api_endpoint", Json.str "http://b.example/exec")]),
            ("status", Json.str "active")]

/-- An inactive (suspended) provider record. -/
def demoProviderSuspended : Json :=
  Json.obj [("metadata", Json.obj [("api_endpoint", Json.str "http://b.example/exec")]),
            ("status", Json.str "suspended")]

/-- A service contract naming provider `B`. -/
def demoContract : Json := Json.obj [("provider_agent_id", Json.str "B")]

/-- A committing transaction body: `intent = "transaction.commit"` and no
`approval_id` anywhere. -/
def demoBodyCommit : Json :=
  Json.obj [("consumer_agent_id", Json.str "A"),
            ("payload", Json.obj [("intent", Json.str "transaction.commit")]),
            ("service_id", Json.str "S1"),
            ("transaction_id", Json.str "t1")]

/-- A request environment for a healthy consumer `A` (active record,
parseable key, signature accepted), parameterised by the three remaining
downstream outcomes.  Parsed keys are modelled as the PEM string itself. -/
def demoEnv (serviceFetch providerFetch proxyFetch : Fetch) : A2AEnv String :=
  ⟨none, true, fun pem => some pem, fun _ _ _ => SigResult.valid,
    Fetch.resp 200 (some demoRecordA), serviceFetch, providerFetch, proxyFetch⟩

/-- The signed request carrying `demoBodyCommit`. -/
def demoReq : A2ARequest := ⟨some demoBodyCommit, some "c2ln", none⟩

/-- Cold caches. -/
def demoState : A2AState String := ⟨[], []⟩

/-- Sanity check of the compact (signing-side) encoder: keys sorted, no
spaces around separators. -/
theorem signTaskCanonical_two_fields :
    signTaskCanonical (Json.obj [("b", Json.num 2), ("a", Json.num 1)])
    = "\x7b\"a\":1,\"b\":2\x7d" := by decide

/-- Sanity check of the default-separator (verifier-side) encoder: keys
sorted, spaces after the separators. -/
theorem a2aCanonical_two_fields :
    a2aCanonical (Json.obj [("b", Json.num 2), ("a", Json.num 1)])
    = "\x7b\"a\": 1, \"b\": 2\x7d" := by decide

/-- C1: the consumer-side canonical encoding (`_sign_task`, compact
separators) and the verifier-side canonical encoding (`a2a_transact`,
default separators) disagree already on the one-field payload
`{"a": 1}`: the signer encodes `{"a":1}` while the verifier encodes
`{"a": 1}`, so an Ed25519 signature over the signer's bytes cannot verify
over the verifier's bytes. -/
theorem C1_canonical_encodings_diverge :
    signTaskCanonical (Json.obj [("a", Json.num 1)])
      ≠ a2aCanonical (Json.obj [("a", Json.num 1)])
    ∧ signTaskCanonical (Json.obj [("a", Json.num 1)]) = "\x7b\"a\":1\x7d"
    ∧ a2aCanonical (Json.obj [("a", Json.num 1)]) = "\x7b\"a\": 1\x7d" := by
  refine ⟨?_, ?_, ?_⟩ <;> decide

/-- A fresh cache entry (age below TTL) is served without any fetch. -/
theorem get_agent_record_hit (fetch : Fetch) (now : Nat) (agent : String) (record : Json)
    (ts : Nat) (cache : RecordCache)
    (h1 : cacheLookup cache agent = some (record, ts))
    (h2 : now - ts < CACHE_TTL_SECONDS) :
    get_agent_record true fetch now agent cache = ⟨some record, cache, false⟩ := by
  simp [get_agent_record, h1, h2]

/-- On a cache miss the lookup goes to the fetch path. -/
theorem get_agent_record_miss (fetch : Fetch) (now : Nat) (agent : String)
    (cache : RecordCache) (h : cacheLookup cache agent = none) :
    get_agent_record true fetch now agent cache = fetchAgentRecord fetch now agent cache := by
  simp [get_agent_record, h]

/-- On a stale cache entry the lookup goes to the fetch path. -/
theorem get_agent_record_stale (fetch : Fetch) (now : Nat) (agent : String) (record : Json)
    (ts : Nat) (cache : RecordCache)
    (h1 : cacheLookup cache agent = some (record, ts))
    (h2 : ¬ (now - ts < CACHE_TTL_SECONDS)) :
    get_agent_record true fetch now agent cache = fetchAgentRecord fetch now agent cache := by
  simp [get_agent_record, h1, h2]

/-- A 200 response with an active record is returned and cached. -/
theorem fetchAgentRecord_active (data : Json) (kvs : List (String × Json)) (now : Nat)
    (agent : String) (cache : RecordCache)
    (h1 : data.asObj = some kvs) (h2 : isActiveStatus kvs = true) :
    fetchAgentRecord (Fetch.resp 200 (some data)) now agent cache
      = ⟨some data, cacheInsert cache agent data now, true⟩ := by
  simp [fetchAgentRecord, h1, h2]

/-- A network failure or a directory 404 yields no record and leaves the
cache untouched. -/
theorem fetchAgentRecord_fail (fetch : Fetch) (now : Nat) (agent : String)
    (cache : RecordCache)
    (h : fetch = Fetch.exn ∨ ∃ b, fetch = Fetch.resp 404 b) :
    fetchAgentRecord fetch now agent cache = ⟨none, cache, true⟩ := by
  rcases h with h | ⟨b, h⟩ <;> subst h <;> simp [fetchAgentRecord]

/-- Reading back the key just written. -/
theorem cacheLookup_insert_self {α : Type} (c : List (String × α × Nat)) (k : String)
    (v : α) (ts : Nat) :
    cacheLookup (cacheInsert c k v ts) k = some (v, ts) := by
  simp [cacheLookup, cacheInsert, List.lookup]

/-- A write to one key does not affect reads of another. -/
theorem cacheLookup_insert_ne {α : Type} (c : List (String × α × Nat)) (k a : String)
    (v : α) (ts : Nat) (h : a ≠ k) :
    cacheLookup (cacheInsert c k v ts) a = cacheLookup c a := by
  have hb : (a == k) = false := beq_eq_false_iff_ne.mpr h
  simp [cacheLookup, cacheInsert, List.lookup, hb]

/-- While the cache holds an entry younger than TTL at every queried
time, a lookup sequence issues no fetch and leaves the cache unchanged. -/
theorem runLookups_allHit (fetch : Fetch) (agent : String) (data : Json) (t0 : Nat) :
    ∀ (times : List Nat) (cache : RecordCache),
      cacheLookup cache agent = some (data, t0) →
      (∀ t ∈ times, t - t0 < CACHE_TTL_SECONDS) →
      runLookups true fetch agent times cache = (cache, 0)
  | [], _, _, _ => rfl
  | t :: ts, cache, h1, h2 => by
    have hhit := get_agent_record_hit fetch t agent data t0 cache h1
      (h2 t (List.mem_cons_self t ts))
    have ih := runLookups_allHit fetch agent data t0 ts cache h1
      (fun u hu => h2 u (List.mem_cons_of_mem t hu))
    simp [runLookups, hhit, ih]

/-- C5: identity-cache TTL behaviour of `get_agent_record`.
Part 1: a read within TTL (strictly less than 300 seconds after the
entry's fetch time) returns the cached record and issues no fetch.
Part 2: starting from a cold cache, a successful lookup at `t0` followed
by any number of lookups within TTL of `t0` issues exactly one directory
fetch in total.
Part 3: a read strictly after TTL expiry issues a fresh fetch whose
successful (active) result replaces the cache entry. -/
theorem C5_identity_cache_ttl :
    (∀ (fetch : Fetch) (now : Nat) (agent : String) (record : Json) (ts : Nat)
        (cache : RecordCache),
      cacheLookup cache agent = some (record, ts) →
      now - ts < CACHE_TTL_SECONDS →
      get_agent_record true fetch now agent cache = ⟨some record, cache, false⟩)
    ∧ (∀ (data : Json) (kvs : List (String × Json)) (t0 : Nat) (times : List Nat)
        (agent : String) (cache : RecordCache),
      cacheLookup cache agent = none →
      data.asObj = some kvs → isActiveStatus kvs = true →
      (∀ t ∈ times, t - t0 < CACHE_TTL_SECONDS) →
      countFetches true (Fetch.resp 200 (some data)) agent (t0 :: times) cache = 1)
    ∧ (∀ (now : Nat) (agent : String) (record : Json) (ts : Nat) (cache : RecordCache)
        (data : Json) (kvs : List (String × Json)),
      cacheLookup cache agent = some (record, ts) →
      ¬ (now - ts < CACHE_TTL_SECONDS) →
      data.asObj = some kvs → isActiveStatus kvs = true →
      get_agent_record true (Fetch.resp 200 (some data)) now agent cache
          = ⟨some data, cacheInsert cache agent data now, true⟩
        ∧ cacheLookup (cacheInsert cache agent data now) agent = some (data, now)) := by
  refine ⟨get_agent_record_hit, ?_, ?_⟩
  · intro data kvs t0 times agent cache hMiss hObj hAct hTimes
    have hFirst : get_agent_record true (Fetch.resp 200 (some data)) t0 agent cache
        = ⟨some data, cacheInsert cache agent data t0, true⟩ := by
      rw [get_agent_record_miss _ _ _ _ hMiss, fetchAgentRecord_active data kvs t0 agent cache hObj hAct]
    have hRest := runLookups_allHit (Fetch.resp 200 (some data)) agent data t0 times
      (cacheInsert cache agent data t0) (cacheLookup_insert_self cache agent data t0) hTimes
    simp [countFetches, runLookups, hFirst, hRest]
  · intro now agent record ts cache data kvs hLook hStale hObj hAct
    refine ⟨?_, cacheLookup_insert_self cache agent data now⟩
    rw [get_agent_record_stale _ _ _ _ _ _ hLook hStale,
      fetchAgentRecord_active data kvs now agent cache hObj hAct]

/-- C5 witness: concrete instances of all three parts. -/
theorem C5_identity_cache_ttl_witness :
    get_agent_record true Fetch.exn 10 "A" [("A", Json.null, 0)]
        = ⟨some Json.null, [("A", Json.null, 0)], false⟩
    ∧ countFetches true (Fetch.resp 200 (some (Json.obj [("status", Json.str "active")])))
        "A" [0, 100, 299] [] = 1
    ∧ (get_agent_record true (Fetch.resp 200 (some (Json.obj [("status", Json.str "active")])))
          300 "A" [("A", Json.null, 0)]
        = ⟨some (Json.obj [("status", Json.str "active")]),
            cacheInsert [("A", Json.null, 0)] "A" (Json.obj [("status", Json.str "active")]) 300,
            true⟩
      ∧ cacheLookup (cacheInsert [("A", Json.null, 0)] "A"
            (Json.obj [("status", Json.str "active")]) 300) "A"
          = some (Json.obj [("status", Json.str "active")], 300)) :=
  ⟨C5_identity_cache_ttl.1 Fetch.exn 10 "A" Json.null 0 _ rfl (by decide),
   C5_identity_cache_ttl.2.1 (Json.obj [("status", Json.str "active")])
     [("status", Json.str "active")] 0 [100, 299] "A" [] rfl rfl rfl (by decide),
   C5_identity_cache_ttl.2.2 300 "A" Json.null 0 [("A", Json.null, 0)]
     (Json.obj [("status", Json.str "active")]) [("status", Json.str "active")]
     rfl (by decide) rfl rfl⟩

/-- C6: when identity resolution fails — the Directory reports 404 or the
call raises a network/timeout error — `get_agent_record` returns no
record, and the identity cache is left exactly as it was (negative
results are never cached); consequently, with nothing cached for the
agent, a later lookup that finds an active record succeeds immediately,
with no TTL to wait out. -/
theorem C6_resolution_failure_leaves_cache_unchanged :
    ∀ (fetch : Fetch) (now : Nat) (agent : String) (cache : RecordCache),
      (fetch = Fetch.exn ∨ ∃ b, fetch = Fetch.resp 404 b) →
      ((get_agent_record true fetch now agent cache).cache = cache
        ∧ ((get_agent_record true fetch now agent cache).fetched = true →
            (get_agent_record true fetch now agent cache).record = none))
      ∧ (∀ (data : Json) (kvs : List (String × Json)) (later : Nat),
          cacheLookup cache agent = none →
          data.asObj = some kvs → isActiveStatus kvs = true →
          (get_agent_record true (Fetch.resp 200 (some data)) later agent cache).record
            = some data) := by
  intro fetch now agent cache hFail
  constructor
  · rcases hc : cacheLookup cache agent with _ | ⟨record, ts⟩
    · rw [get_agent_record_miss _ _ _ _ hc, fetchAgentRecord_fail _ _ _ _ hFail]
      exact ⟨rfl, fun _ => rfl⟩
    · by_cases hFresh : now - ts < CACHE_TTL_SECONDS
      · rw [get_agent_record_hit _ _ _ _ _ _ hc hFresh]
        exact ⟨rfl, fun h => by cases h⟩
      · rw [get_agent_record_stale _ _ _ _ _ _ hc hFresh, fetchAgentRecord_fail _ _ _ _ hFail]
        exact ⟨rfl, fun _ => rfl⟩
  · intro data kvs later hMiss hObj hAct
    rw [get_agent_record_miss _ _ _ _ hMiss, fetchAgentRecord_active data kvs later agent cache hObj hAct]

/-- C6 witness: a timed-out directory call at a cold cache caches
nothing, and the agent resolves on the next (successful) lookup. -/
theorem C6_resolution_failure_witness :
    ((get_agent_record true Fetch.exn 5 "B" []).cache = []
      ∧ ((get_agent_record true Fetch.exn 5 "B" []).fetched = true →
          (get_agent_record true Fetch.exn 5 "B" []).record = none))
    ∧ (get_agent_record true
        (Fetch.resp 200 (some (Json.obj [("status", Json.str "active")]))) 6 "B" []).record
        = some (Json.obj [("status", Json.str "active")]) :=
  ⟨(C6_resolution_failure_leaves_cache_unchanged Fetch.exn 5 "B" [] (Or.inl rfl)).1,
   (C6_resolution_failure_leaves_cache_unchanged Fetch.exn 5 "B" [] (Or.inl rfl)).2
     (Json.obj [("status", Json.str "active")]) [("status", Json.str "active")] 6 rfl rfl rfl⟩

/-- The fetch path either leaves the cache alone or inserts a record
validated as active. -/
theorem fetchAgentRecord_cache_shape (fetch : Fetch) (now : Nat) (agent : String)
    (cache : RecordCache) :
    (fetchAgentRecord fetch now agent cache).cache = cache
    ∨ ∃ data kvs, data.asObj = some kvs ∧ isActiveStatus kvs = true
        ∧ (fetchAgentRecord fetch now agent cache).cache = cacheInsert cache agent data now := by
  cases fetch with
  | exn => exact Or.inl rfl
  | resp status body =>
    by_cases h404 : status = 404
    · left; simp [fetchAgentRecord, h404]
    · by_cases h200 : status = 200
      · subst h200
        cases body with
        | none => left; simp [fetchAgentRecord, h404]
        | some data =>
          rcases hObj : data.asObj with _ | kvs
          · left; simp [fetchAgentRecord, h404, hObj]
          · by_cases hAct : isActiveStatus kvs = true
            · exact Or.inr ⟨data, kvs, hObj, hAct, by simp [fetchAgentRecord, h404, hObj, hAct]⟩
            · left; simp [fetchAgentRecord, h404, hObj, hAct]
      · left; simp [fetchAgentRecord, h404, h200]

/-- The fetch path preserves the active-records-only invariant. -/
theorem fetchAgentRecord_inv (fetch : Fetch) (now : Nat) (agent : String)
    (cache : RecordCache) (h : RecordCacheInv cache) :
    RecordCacheInv (fetchAgentRecord fetch now agent cache).cache := by
  rcases fetchAgentRecord_cache_shape fetch now agent cache with hc | ⟨data, kvs, hObj, hAct, hc⟩
  · rw [hc]; exact h
  · rw [hc]
    intro a r ts hl
    by_cases ha : a = agent
    · subst ha
      rw [cacheLookup_insert_self] at hl
      obtain ⟨hr, _⟩ := Prod.mk.injEq .. ▸ Option.some.inj hl
      exact ⟨kvs, hr ▸ hObj, hAct⟩
    · rw [cacheLookup_insert_ne _ _ _ _ _ ha] at hl
      exact h a r ts hl

/-- C9: invariant of `AGENT_RECORD_CACHE` — `get_agent_record` only ever
inserts records whose `status` field was the string `"active"` at fetch
time, so from a state where every cached record is active, every state it
produces also only holds active records; a cache hit can never return a
record that was known non-active when cached. -/
theorem C9_cache_holds_only_active :
    ∀ (dirUrlSet : Bool) (fetch : Fetch) (now : Nat) (agent : String) (cache : RecordCache),
      RecordCacheInv cache →
      RecordCacheInv (get_agent_record dirUrlSet fetch now agent cache).cache := by
  intro dirUrlSet fetch now agent cache hInv
  cases dirUrlSet with
  | false => simpa [get_agent_record] using hInv
  | true =>
    rcases hc : cacheLookup cache agent with _ | ⟨record, ts⟩
    · rw [get_agent_record_miss _ _ _ _ hc]
      exact fetchAgentRecord_inv _ _ _ _ hInv
    · by_cases hFresh : now - ts < CACHE_TTL_SECONDS
      · rw [get_agent_record_hit _ _ _ _ _ _ hc hFresh]; exact hInv
      · rw [get_agent_record_stale _ _ _ _ _ _ hc hFresh]
        exact fetchAgentRecord_inv _ _ _ _ hInv

/-- C9 witness: inserting an active record into the empty cache keeps the
invariant. -/
theorem C9_cache_holds_only_active_witness :
    RecordCacheInv (get_agent_record true
      (Fetch.resp 200 (some (Json.obj [("status", Json.str "active")]))) 0 "A" []).cache :=
  C9_cache_holds_only_active true _ 0 "A" []
    (fun a r ts h => by simp [cacheLookup, List.lookup] at h)

/-- C10: with the server-side `AGENT_API_KEY` unset, `require_api_key`
lets every request proceed, whatever `X-API-Key` header (or none) it
carries; the 401 branch is unreachable in that configuration. -/
theorem C10_api_key_bypass_when_unset :
    ∀ headerKey : Option String, require_api_key none headerKey = KeyCheck.proceed := by
  intro headerKey
  rfl

/-- C2: the `/v1/a2a/transact` router applies no HITL gate — a fully
valid transaction whose payload carries `intent = "transaction.commit"`
and *no* `approval_id` is proxied to the provider and the provider's
response is relayed (here 200), instead of being answered 403 with
`requires_hitl: true` as the specification requires. -/
theorem C2_commit_without_approval_is_proxied :
    (a2a_transact (demoEnv (Fetch.resp 200 (some demoContract))
        (Fetch.resp 200 (some demoProviderB))
        (Fetch.resp 200 (some (Json.obj [("result", Json.num 42)]))))
        demoState 0 demoReq).1
      = ⟨200, Json.obj [("result", Json.num 42)]⟩
    ∧ (a2a_transact (demoEnv (Fetch.resp 200 (some demoContract))
        (Fetch.resp 200 (some demoProviderB))
        (Fetch.resp 200 (some (Json.obj [("result", Json.num 42)]))))
        demoState 0 demoReq).1.status ≠ 403 :=
  ⟨rfl, by decide⟩

/-- C3 counterexample: a network/timeout failure while contacting the
Trust Directory for the service contract is answered 500, not the
claimed 503. -/
theorem C3_service_lookup_network_failure_is_500 :
    (a2a_transact (demoEnv Fetch.exn (Fetch.resp 200 (some demoProviderB))
        (Fetch.resp 200 (some (Json.obj [("result", Json.num 42)]))))
        demoState 0 demoReq).1.status = 500
    ∧ (a2a_transact (demoEnv Fetch.exn (Fetch.resp 200 (some demoProviderB))
        (Fetch.resp 200 (some (Json.obj [("result", Json.num 42)]))))
        demoState 0 demoReq).1.status ≠ 503 :=
  ⟨rfl, by decide⟩

/-- A 503 out of the proxy step can only come from a proxy-call
exception, an unparseable provider body, or the provider itself
answering 503. -/
theorem a2a_proxy_503_sources (pf : Fetch) (h : (a2a_proxy pf).status = 503) :
    pf = Fetch.exn ∨ (∃ s, pf = Fetch.resp s none) ∨ ∃ j, pf = Fetch.resp 503 (some j) := by
  cases pf with
  | exn => exact Or.inl rfl
  | resp s b =>
    cases b with
    | none => exact Or.inr (Or.inl ⟨s, rfl⟩)
    | some j =>
      simp only [a2a_proxy] at h
      exact Or.inr (Or.inr ⟨j, by rw [h]⟩)

/-- Provider resolution itself never produces a 503; only the proxy step
it ends in can. -/
theorem a2a_provider_503_sources {K : Type} (env : A2AEnv K) (st : A2AState K) (now : Nat)
    (contract : Json) (h : (a2a_provider env st now contract).1.status = 503) :
    env.proxyFetch = Fetch.exn ∨ (∃ s, env.proxyFetch = Fetch.resp s none)
      ∨ ∃ j, env.proxyFetch = Fetch.resp 503 (some j) := by
  unfold a2a_provider at h
  repeat' split at h
  all_goals first
    | exact a2a_proxy_503_sources _ h
    | simp [internalError] at h

/-- Service resolution never produces a 503 — in particular a directory
network failure there is 500 — so a 503 can only originate downstream at
the proxy step. -/
theorem a2a_service_503_sources {K : Type} (env : A2AEnv K) (st : A2AState K) (now : Nat)
    (bodyKvs : List (String × Json))
    (h : (a2a_service env st now bodyKvs).1.status = 503) :
    env.proxyFetch = Fetch.exn ∨ (∃ s, env.proxyFetch = Fetch.resp s none)
      ∨ ∃ j, env.proxyFetch = Fetch.resp 503 (some j) := by
  unfold a2a_service at h
  repeat' split at h
  all_goals first
    | exact a2a_provider_503_sources _ _ _ _ h
    | simp [internalError] at h

/-- C3 (amended): 503 is *not* the blanket status for downstream
network/timeout failures.  Whenever `/v1/a2a/transact` answers 503, the
failure happened at the provider proxy call (an exception there, an
unparseable provider body, or a relayed provider 503); network failures
at the directory lookups surface as 403/404/500 instead, as the
accompanying counterexample shows for the service-contract lookup. -/
theorem C3_503_only_from_provider_proxy {K : Type} :
    ∀ (env : A2AEnv K) (st : A2AState K) (now : Nat) (req : A2ARequest),
      (a2a_transact env st now req).1.status = 503 →
      env.proxyFetch = Fetch.exn ∨ (∃ s, env.proxyFetch = Fetch.resp s none)
        ∨ ∃ j, env.proxyFetch = Fetch.resp 503 (some j) := by
  intro env st now req h
  unfold a2a_transact at h
  repeat' split at h
  all_goals first
    | exact a2a_service_503_sources _ _ _ _ h
    | simp [internalError] at h

/-- C3 amended-claim witness: an unreachable provider endpoint yields
503, and the theorem traces that 503 back to the proxy call. -/
theorem C3_503_only_from_provider_proxy_witness :
    (a2a_transact (demoEnv (Fetch.resp 200 (some demoContract))
        (Fetch.resp 200 (some demoProviderB)) Fetch.exn) demoState 0 demoReq).1.status = 503
    ∧ ((demoEnv (Fetch.resp 200 (some demoContract))
          (Fetch.resp 200 (some demoProviderB)) Fetch.exn).proxyFetch = Fetch.exn
        ∨ (∃ s, (demoEnv (Fetch.resp 200 (some demoContract))
            (Fetch.resp 200 (some demoProviderB)) Fetch.exn).proxyFetch = Fetch.resp s none)
        ∨ ∃ j, (demoEnv (Fetch.resp 200 (some demoContract))
            (Fetch.resp 200 (some demoProviderB)) Fetch.exn).proxyFetch
              = Fetch.resp 503 (some j)) :=
  ⟨rfl, C3_503_only_from_provider_proxy
    (demoEnv (Fetch.resp 200 (some demoContract)) (Fetch.resp 200 (some demoProviderB)) Fetch.exn)
    demoState 0 demoReq rfl⟩

/-- C4 counterexample: a provider whose Directory record exists but has
`status = "suspended"` is answered 404 — not the claimed 403 — because
`get_agent_record` collapses "not found" and "not active" into the same
`None`. -/
theorem C4_inactive_provider_is_404 :
    (a2a_transact (demoEnv (Fetch.resp 200 (some demoContract))
        (Fetch.resp 200 (some demoProviderSuspended))
        (Fetch.resp 200 (some (Json.obj [("result", Json.num 42)]))))
        demoState 0 demoReq).1.status = 404
    ∧ (a2a_transact (demoEnv (Fetch.resp 200 (some demoContract))
        (Fetch.resp 200 (some demoProviderSuspended))
        (Fetch.resp 200 (some (Json.obj [("result", Json.num 42)]))))
        demoState 0 demoReq).1.status ≠ 403 :=
  ⟨rfl, by decide⟩

/-- Under a passing API-key check, a well-formed signed body and a
successfully verified consumer, the router proceeds to the
service-resolution stage with the updated caches. -/
theorem a2a_transact_reaches_service {K : Type} (serverKey apiKey : Option String)
    (parseKey : String → Option K) (verify : K → String → String → SigResult)
    (dirUrl : Bool) (cF sF pF xF : Fetch) (st : A2AState K) (now : Nat)
    (bodyKvs : List (String × Json)) (sig cid : String) (key : K)
    (kc2 : KeyCache K) (rc2 : RecordCache) (f1 : Bool)
    (h1 : require_api_key serverKey apiKey = KeyCheck.proceed)
    (h3 : bodyKvs.isEmpty = false)
    (h5 : sig ≠ "")
    (h6 : strId (jsonGet bodyKvs "consumer_agent_id") = some cid)
    (h7 : get_public_key parseKey dirUrl cF now cid st.kcache st.rcache
            = ⟨some key, kc2, rc2, f1⟩)
    (h8 : verify key (a2aCanonical (Json.obj bodyKvs)) sig = SigResult.valid) :
    a2a_transact ⟨serverKey, dirUrl, parseKey, verify, cF, sF, pF, xF⟩ st now
        ⟨some (Json.obj bodyKvs), some sig, apiKey⟩
      = a2a_service ⟨serverKey, dirUrl, parseKey, verify, cF, sF, pF, xF⟩
          ⟨kc2, rc2⟩ now bodyKvs := by
  simp only [a2a_transact, h1, Json.asObj, h3, h5, h6, h7, h8]
  simp

/-- C4 (amended): provider lookup failures are *not* distinguished by
status: both a provider unknown to the Directory (404 there) and a
provider whose record is non-active make `get_agent_record` return
`None` (parts 1 and 2), and the router then answers 404 "Provider agent
not found or inactive" in both cases (part 3). -/
theorem C4_unknown_and_inactive_provider_both_404 {K : Type} :
    (∀ (now : Nat) (pid : String) (cache : RecordCache) (b : Option Json),
      fetchAgentRecord (Fetch.resp 404 b) now pid cache = ⟨none, cache, true⟩)
    ∧ (∀ (now : Nat) (pid : String) (cache : RecordCache) (data : Json)
          (kvs : List (String × Json)),
      data.asObj = some kvs → isActiveStatus kvs = false →
      fetchAgentRecord (Fetch.resp 200 (some data)) now pid cache = ⟨none, cache, true⟩)
    ∧ (∀ (serverKey apiKey : Option String) (parseKey : String → Option K)
          (verify : K → String → String → SigResult) (cF pF xF : Fetch)
          (contract : Json) (st : A2AState K) (now : Nat)
          (bodyKvs : List (String × Json)) (sig cid sid : String) (key : K)
          (kc2 : KeyCache K) (rc2 : RecordCache) (f1 : Bool)
          (ckvs : List (String × Json)) (pid : String) (rc3 : RecordCache) (f2 : Bool),
      require_api_key serverKey apiKey = KeyCheck.proceed →
      bodyKvs.isEmpty = false →
      sig ≠ "" →
      strId (jsonGet bodyKvs "consumer_agent_id") = some cid →
      get_public_key parseKey true cF now cid st.kcache st.rcache = ⟨some key, kc2, rc2, f1⟩ →
      verify key (a2aCanonical (Json.obj bodyKvs)) sig = SigResult.valid →
      strId (jsonGet bodyKvs "service_id") = some sid →
      contract.asObj = some ckvs →
      strId (jsonGet ckvs "provider_agent_id") = some pid →
      get_agent_record true pF now pid rc2 = ⟨none, rc3, f2⟩ →
      (a2a_transact ⟨serverKey, true, parseKey, verify, cF, Fetch.resp 200 (some contract), pF, xF⟩
          st now ⟨some (Json.obj bodyKvs), some sig, apiKey⟩).1
        = ⟨404, errJson ("Provider agent not found or inactive: " ++ pid)⟩) := by
  refine ⟨?_, ?_, ?_⟩
  · intro now pid cache b
    simp [fetchAgentRecord]
  · intro now pid cache data kvs hObj hAct
    simp [fetchAgentRecord, hObj, hAct]
  · intro serverKey apiKey parseKey verify cF pF xF contract st now bodyKvs sig cid sid key
      kc2 rc2 f1 ckvs pid rc3 f2 h1 h3 h5 h6 h7 h8 h9 h12 h13 h14
    rw [a2a_transact_reaches_service serverKey apiKey parseKey verify true cF
      (Fetch.resp 200 (some contract)) pF xF st now bodyKvs sig cid key kc2 rc2 f1
      h1 h3 h5 h6 h7 h8]
    simp only [a2a_service, a2a_provider, h9, h12, h13, h14]
    simp

/-- C4 amended-claim witness: an unknown provider (Directory 404) run
through the full router yields the same 404 answer the inactive-provider
counterexample gets. -/
theorem C4_unknown_and_inactive_provider_both_404_witness :
    fetchAgentRecord (Fetch.resp 404 none) 0 "B" [] = ⟨none, [], true⟩
    ∧ fetchAgentRecord (Fetch.resp 200 (some demoProviderSuspended)) 0 "B" []
        = ⟨none, [], true⟩
    ∧ (a2a_transact (⟨none, true, fun pem => some pem, fun _ _ _ => SigResult.valid,
          Fetch.resp 200 (some demoRecordA), Fetch.resp 200 (some demoContract),
          Fetch.resp 404 none, Fetch.resp 200 (some (Json.obj [("result", Json.num 42)]))⟩
          : A2AEnv String)
        demoState 0 demoReq).1
      = ⟨404, errJson ("Provider agent not found or inactive: " ++ "B")⟩ :=
  ⟨(C4_unknown_and_inactive_provider_both_404 (K := String)).1 0 "B" [] none,
   (C4_unknown_and_inactive_provider_both_404 (K := String)).2.1 0 "B" []
     demoProviderSuspended
     [("metadata", Json.obj [("api_endpoint", Json.str "http://b.example/exec")]),
      ("status", Json.str "suspended")] rfl rfl,
   (C4_unknown_and_inactive_provider_both_404 (K := String)).2.2 none none
     (fun pem => some pem) (fun _ _ _ => SigResult.valid)
     (Fetch.resp 200 (some demoRecordA)) (Fetch.resp 404 none)
     (Fetch.resp 200 (some (Json.obj [("result", Json.num 42)]))) demoContract
     demoState 0
     [("consumer_agent_id", Json.str "A"),
      ("payload", Json.obj [("intent", Json.str "transaction.commit")]),
      ("service_id", Json.str "S1"), ("transaction_id", Json.str "t1")]
     "c2ln" "A" "S1" "PEM-A" [("A", "PEM-A", 0)] [("A", demoRecordA, 0)] true
     [("provider_agent_id", Json.str "B")] "B" [("A", demoRecordA, 0)] true
     rfl rfl (by decide) rfl rfl rfl rfl rfl rfl rfl⟩

/-- C7 counterexample: a request with *no* `X-Agent-Signature` header is
answered 400 ("Malformed A2A request"), not the claimed 401. -/
theorem C7_missing_signature_is_400 :
    (a2a_transact (demoEnv (Fetch.resp 200 (some demoContract))
        (Fetch.resp 200 (some demoProviderB))
        (Fetch.resp 200 (some (Json.obj [("result", Json.num 42)]))))
        demoState 0 ⟨some demoBodyCommit, none, none⟩).1.status = 400
    ∧ (a2a_transact (demoEnv (Fetch.resp 200 (some demoContract))
        (Fetch.resp 200 (some demoProviderB))
        (Fetch.resp 200 (some (Json.obj [("result", Json.num 42)]))))
        demoState 0 ⟨some demoBodyCommit, none, none⟩).1.status ≠ 401 :=
  ⟨rfl, by decide⟩

/-- The proxy step answers 401 only by relaying a provider 401. -/
theorem a2a_proxy_401_relay (pf : Fetch) (h : (a2a_proxy pf).status = 401) :
    ∃ j, pf = Fetch.resp 401 (some j) := by
  cases pf with
  | exn => simp [a2a_proxy] at h
  | resp s b =>
    cases b with
    | none => simp [a2a_proxy] at h
    | some j =>
      simp only [a2a_proxy] at h
      exact ⟨j, by rw [h]⟩

/-- Provider resolution answers 401 only via the proxy relay. -/
theorem a2a_provider_401_sources {K : Type} (env : A2AEnv K) (st : A2AState K) (now : Nat)
    (contract : Json) (h : (a2a_provider env st now contract).1.status = 401) :
    ∃ j, env.proxyFetch = Fetch.resp 401 (some j) := by
  unfold a2a_provider at h
  repeat' split at h
  all_goals first
    | exact a2a_proxy_401_relay _ h
    | simp [internalError] at h

/-- Service resolution answers 401 only via the proxy relay. -/
theorem a2a_service_401_sources {K : Type} (env : A2AEnv K) (st : A2AState K) (now : Nat)
    (bodyKvs : List (String × Json))
    (h : (a2a_service env st now bodyKvs).1.status = 401) :
    ∃ j, env.proxyFetch = Fetch.resp 401 (some j) := by
  unfold a2a_service at h
  repeat' split at h
  all_goals first
    | exact a2a_provider_401_sources _ _ _ _ h
    | simp [internalError] at h

/-- C7 (amended): the router itself generates 401 exactly for a failed
API-key check (answered with body `{"error": "Unauthorized"}`) and for a
signature that fails verification; a *missing* `X-Agent-Signature`
header instead falls into the `all([...])` validation and is answered
400 (part 2 and the separate counterexample); beyond these, a 401 can
only be a relayed provider 401 (part 3, the inversion). -/
theorem C7_401_exactly_from_auth_failures {K : Type} :
    (∀ (env : A2AEnv K) (st : A2AState K) (now : Nat) (req : A2ARequest),
      require_api_key env.serverApiKey req.apiKey = KeyCheck.unauthorized →
      (a2a_transact env st now req).1 = ⟨401, errJson "Unauthorized"⟩)
    ∧ (∀ (env : A2AEnv K) (st : A2AState K) (now : Nat)
          (bodyKvs : List (String × Json)) (apiKey : Option String),
      require_api_key env.serverApiKey apiKey = KeyCheck.proceed →
      bodyKvs.isEmpty = false →
      (a2a_transact env st now ⟨some (Json.obj bodyKvs), none, apiKey⟩).1
        = ⟨400, malformedA2A⟩)
    ∧ (∀ (env : A2AEnv K) (st : A2AState K) (now : Nat) (req : A2ARequest),
      (a2a_transact env st now req).1.status = 401 →
      require_api_key env.serverApiKey req.apiKey = KeyCheck.unauthorized
      ∨ (∃ (bodyJson : Json) (sig : String) (key : K),
          req.body = some bodyJson ∧ req.signature = some sig
          ∧ env.verify key (a2aCanonical bodyJson) sig = SigResult.invalid)
      ∨ ∃ j, env.proxyFetch = Fetch.resp 401 (some j)) := by
  refine ⟨?_, ?_, ?_⟩
  · intro env st now req h
    simp only [a2a_transact, h]
  · intro env st now bodyKvs apiKey h1 h3
    simp only [a2a_transact, h1, Json.asObj, h3]
    simp
  · intro env st now req h
    unfold a2a_transact at h
    repeat' split at h
    all_goals try (exact Or.inr (Or.inr (a2a_service_401_sources _ _ _ _ h)))
    all_goals try (simp [internalError, malformedA2A] at h)
    all_goals first
      | exact Or.inl (by assumption)
      | exact Or.inr (Or.inl ⟨_, _, _, by assumption, by assumption, by assumption⟩)

/-- C7 amended-claim witness: a wrong API key is answered exactly
`401 {"error": "Unauthorized"}`, and the inversion traces that 401 to
the failed key check. -/
theorem C7_401_exactly_from_auth_failures_witness :
    (a2a_transact (⟨some "k", true, fun pem => some pem, fun _ _ _ => SigResult.valid,
        Fetch.resp 200 (some demoRecordA), Fetch.resp 200 (some demoContract),
        Fetch.resp 200 (some demoProviderB), Fetch.resp 200 (some (Json.num 1))⟩
        : A2AEnv String)
      demoState 0 demoReq).1 = ⟨401, errJson "Unauthorized"⟩
    ∧ (a2a_transact (demoEnv (Fetch.resp 200 (some demoContract))
        (Fetch.resp 200 (some demoProviderB))
        (Fetch.resp 200 (some (Json.obj [("result", Json.num 42)]))))
        demoState 0 ⟨some demoBodyCommit, none, some "x"⟩).1 = ⟨400, malformedA2A⟩
    ∧ (require_api_key (some "k") none = KeyCheck.unauthorized
        ∨ (∃ (bodyJson : Json) (sig : String) (key : String),
            demoReq.body = some bodyJson ∧ demoReq.signature = some sig
            ∧ (fun (_ : String) (_ : String) (_ : String) => SigResult.valid) key
                (a2aCanonical bodyJson) sig = SigResult.invalid)
        ∨ ∃ j, (Fetch.resp 200 (some (Json.num 1)) : Fetch) = Fetch.resp 401 (some j)) :=
  ⟨(C7_401_exactly_from_auth_failures (K := String)).1
      (⟨some "k", true, fun pem => some pem, fun _ _ _ => SigResult.valid,
        Fetch.resp 200 (some demoRecordA), Fetch.resp 200 (some demoContract),
        Fetch.resp 200 (some demoProviderB), Fetch.resp 200 (some (Json.num 1))⟩
        : A2AEnv String)
      demoState 0 demoReq rfl,
   (C7_401_exactly_from_auth_failures (K := String)).2.1
      (demoEnv (Fetch.resp 200 (some demoContract)) (Fetch.resp 200 (some demoProviderB))
        (Fetch.resp 200 (some (Json.obj [("result", Json.num 42)]))))
      demoState 0
      [("consumer_agent_id", Json.str "A"),
       ("payload", Json.obj [("intent", Json.str "transaction.commit")]),
       ("service_id", Json.str "S1"), ("transaction_id", Json.str "t1")]
      (some "x") rfl rfl,
   (C7_401_exactly_from_auth_failures (K := String)).2.2
      (⟨some "k", true, fun pem => some pem, fun _ _ _ => SigResult.valid,
        Fetch.resp 200 (some demoRecordA), Fetch.resp 200 (some demoContract),
        Fetch.resp 200 (some demoProviderB), Fetch.resp 200 (some (Json.num 1))⟩
        : A2AEnv String)
      demoState 0 demoReq rfl⟩

/-- C8 counterexample: a provider response whose body is not valid JSON
is *not* relayed — `response.json()` raises a `RequestException` and the
caller gets 503, losing the provider's 200 status. -/
theorem C8_non_json_provider_body_is_503 :
    (a2a_transact (demoEnv (Fetch.resp 200 (some demoContract))
        (Fetch.resp 200 (some demoProviderB)) (Fetch.resp 200 none))
        demoState 0 demoReq).1.status = 503
    ∧ (a2a_transact (demoEnv (Fetch.resp 200 (some demoContract))
        (Fetch.resp 200 (some demoProviderB)) (Fetch.resp 200 none))
        demoState 0 demoReq).1.status ≠ 200 :=
  ⟨rfl, by decide⟩

/-- C8 (amended): once a transaction reaches the proxy step, a provider
response whose body parses as JSON is relayed verbatim — the caller gets
the provider's status code unchanged and exactly the provider's JSON
body (part 1, for *every* status and body); a provider response whose
body is not valid JSON, or a connection failure/timeout, is instead
answered 503 (parts 2 and 3). -/
theorem C8_relay_verbatim_for_json_bodies {K : Type} :
    ∀ (serverKey apiKey : Option String) (parseKey : String → Option K)
      (verify : K → String → String → SigResult) (cF pF : Fetch)
      (contract : Json) (st : A2AState K) (now : Nat)
      (bodyKvs : List (String × Json)) (sig cid sid : String) (key : K)
      (kc2 : KeyCache K) (rc2 : RecordCache) (f1 : Bool)
      (ckvs : List (String × Json)) (pid : String)
      (record : Json) (rc3 : RecordCache) (f2 : Bool)
      (rkvs : List (String × Json)) (m : Json) (mkvs : List (String × Json)) (ep : String),
      require_api_key serverKey apiKey = KeyCheck.proceed →
      bodyKvs.isEmpty = false →
      sig ≠ "" →
      strId (jsonGet bodyKvs "consumer_agent_id") = some cid →
      get_public_key parseKey true cF now cid st.kcache st.rcache = ⟨some key, kc2, rc2, f1⟩ →
      verify key (a2aCanonical (Json.obj bodyKvs)) sig = SigResult.valid →
      strId (jsonGet bodyKvs "service_id") = some sid →
      contract.asObj = some ckvs →
      strId (jsonGet ckvs "provider_agent_id") = some pid →
      get_agent_record true pF now pid rc2 = ⟨some record, rc3, f2⟩ →
      record.asObj = some rkvs →
      jsonGet rkvs "metadata" = some m →
      m.asObj = some mkvs →
      strId (jsonGet mkvs "api_endpoint") = some ep →
      (∀ (s : Nat) (j : Json),
        (a2a_transact ⟨serverKey, true, parseKey, verify, cF,
            Fetch.resp 200 (some contract), pF, Fetch.resp s (some j)⟩
            st now ⟨some (Json.obj bodyKvs), some sig, apiKey⟩).1 = ⟨s, j⟩)
      ∧ (∀ (s : Nat),
        (a2a_transact ⟨serverKey, true, parseKey, verify, cF,
            Fetch.resp 200 (some contract), pF, Fetch.resp s none⟩
            st now ⟨some (Json.obj bodyKvs), some sig, apiKey⟩).1.status = 503)
      ∧ (a2a_transact ⟨serverKey, true, parseKey, verify, cF,
            Fetch.resp 200 (some contract), pF, Fetch.exn⟩
            st now ⟨some (Json.obj bodyKvs), some sig, apiKey⟩).1.status = 503 := by
  intro serverKey apiKey parseKey verify cF pF contract st now bodyKvs sig cid sid key
    kc2 rc2 f1 ckvs pid record rc3 f2 rkvs m mkvs ep
    h1 h3 h5 h6 h7 h8 h9 h12 h13 h14 h15 h16 h17 h18
  refine ⟨?_, ?_, ?_⟩
  · intro s j
    rw [a2a_transact_reaches_service serverKey apiKey parseKey verify true cF
      (Fetch.resp 200 (some contract)) pF (Fetch.resp s (some j)) st now bodyKvs sig cid key
      kc2 rc2 f1 h1 h3 h5 h6 h7 h8]
    simp only [a2a_service, a2a_provider, a2a_proxy, h9, h12, h13, h14, h15, h16, h17, h18]
    simp
  · intro s
    rw [a2a_transact_reaches_service serverKey apiKey parseKey verify true cF
      (Fetch.resp 200 (some contract)) pF (Fetch.resp s none) st now bodyKvs sig cid key
      kc2 rc2 f1 h1 h3 h5 h6 h7 h8]
    simp only [a2a_service, a2a_provider, a2a_proxy, h9, h12, h13, h14, h15, h16, h17, h18]
    simp
  · rw [a2a_transact_reaches_service serverKey apiKey parseKey verify true cF
      (Fetch.resp 200 (some contract)) pF Fetch.exn st now bodyKvs sig cid key
      kc2 rc2 f1 h1 h3 h5 h6 h7 h8]
    simp only [a2a_service, a2a_provider, a2a_proxy, h9, h12, h13, h14, h15, h16, h17, h18]
    simp

/-- C8 amended-claim witness: a provider teapot answer `418 {"ok": 0}`
is relayed with its status and body intact, while the same transaction
against an unparseable provider body or a dead endpoint gets 503. -/
theorem C8_relay_verbatim_witness :
    (a2a_transact (demoEnv (Fetch.resp 200 (some demoContract))
        (Fetch.resp 200 (some demoProviderB)) (Fetch.resp 418 (some (Json.obj [("ok", Json.num 0)]))))
        demoState 0 demoReq).1 = ⟨418, Json.obj [("ok", Json.num 0)]⟩
    ∧ (a2a_transact (demoEnv (Fetch.resp 200 (some demoContract))
        (Fetch.resp 200 (some demoProviderB)) (Fetch.resp 418 none))
        demoState 0 demoReq).1.status = 503
    ∧ (a2a_transact (demoEnv (Fetch.resp 200 (some demoContract))
        (Fetch.resp 200 (some demoProviderB)) Fetch.exn)
        demoState 0 demoReq).1.status = 503 :=
  ⟨(C8_relay_verbatim_for_json_bodies (K := String) none none (fun pem => some pem)
      (fun _ _ _ => SigResult.valid) (Fetch.resp 200 (some demoRecordA))
      (Fetch.resp 200 (some demoProviderB)) demoContract demoState 0
      [("consumer_agent_id", Json.str "A"),
       ("payload", Json.obj [("intent", Json.str "transaction.commit")]),
       ("service_id", Json.str "S1"), ("transaction_id", Json.str "t1")]
      "c2ln" "A" "S1" "PEM-A" [("A", "PEM-A", 0)] [("A", demoRecordA, 0)] true
      [("provider_agent_id", Json.str "B")] "B" demoProviderB
      (cacheInsert [("A", demoRecordA, 0)] "B" demoProviderB 0) true
      [("metadata", Json.obj [("api_endpoint", Json.str "http://b.example/exec")]),
       ("status", Json.str "active")]
      (Json.obj [("api_endpoint", Json.str "http://b.example/exec")])
      [("api_endpoint", Json.str "http://b.example/exec")] "http://b.example/exec"
      rfl rfl (by decide) rfl rfl rfl rfl rfl rfl rfl rfl rfl rfl rfl).1 418
      (Json.obj [("ok", Json.num 0)]),
   (C8_relay_verbatim_for_json_bodies (K := String) none none (fun pem => some pem)
      (fun _ _ _ => SigResult.valid) (Fetch.resp 200 (some demoRecordA))
      (Fetch.resp 200 (some demoProviderB)) demoContract demoState 0
      [("consumer_agent_id", Json.str "A"),
       ("payload", Json.obj [("intent", Json.str "transaction.commit")]),
       ("service_id", Json.str "S1"), ("transaction_id", Json.str "t1")]
      "c2ln" "A" "S1" "PEM-A" [("A", "PEM-A", 0)] [("A", demoRecordA, 0)] true
      [("provider_agent_id", Json.str "B")] "B" demoProviderB
      (cacheInsert [("A", demoRecordA, 0)] "B" demoProviderB 0) true
      [("metadata", Json.obj [("api_endpoint", Json.str "http://b.example/exec")]),
       ("status", Json.str "active")]
      (Json.obj [("api_endpoint", Json.str "http://b.example/exec")])
      [("api_endpoint", Json.str "http://b.example/exec")] "http://b.example/exec"
      rfl rfl (by decide) rfl rfl rfl rfl rfl rfl rfl rfl rfl rfl rfl).2.1 418,
   (C8_relay_verbatim_for_json_bodies (K := String) none none (fun pem => some pem)
      (fun _ _ _ => SigResult.valid) (Fetch.resp 200 (some demoRecordA))
      (Fetch.resp 200 (some demoProviderB)) demoContract demoState 0
      [("consumer_agent_id", Json.str "A"),
       ("payload", Json.obj [("intent", Json.str "transaction.commit")]),
       ("service_id", Json.str "S1"), ("transaction_id", Json.str "t1")]
      "c2ln" "A" "S1" "PEM-A" [("A", "PEM-A", 0)] [("A", demoRecordA, 0)] true
      [("provider_agent_id", Json.str "B")] "B" demoProviderB
      (cacheInsert [("A", demoRecordA, 0)] "B" demoProviderB 0) true
      [("metadata", Json.obj [("api_endpoint", Json.str "http://b.example/exec")]),
       ("status", Json.str "active")]
      (Json.obj [("api_endpoint", Json.str "http://b.example/exec")])
      [("api_endpoint", Json.str "http://b.example/exec")] "http://b.example/exec"
      rfl rfl (by decide) rfl rfl rfl rfl rfl rfl rfl rfl rfl rfl rfl).2.2⟩

/-- C10 witness: a concrete header value passes with the server key
unset. -/
theorem C10_api_key_bypass_witness :
    require_api_key none (some "whatever") = KeyCheck.proceed :=
  C10_api_key_bypass_when_unset (some "whatever")
